import Mathlib

/-!
Shallow embedding of `linuxautomaton/sv.py`, the state-variable layer of the
lttng-analyses kernel-trace analyzer. Python classes become Lean structures,
`__init__`/classmethod factories become constructor functions, and mutating
methods become functions from the old record to the new one. Nullable Python
attributes are `Option` fields; Python integers are `Int` (timestamps, sizes,
return values) or `Nat` (enumeration codes, vectors, flag masks).
-/

namespace sv

/-- Address-family constants of the Python `socket` module referenced by
`sv.py` (`socket.AF_UNSPEC`, `socket.AF_INET`, `socket.AF_INET6`,
`socket.AF_UNIX`), with their Linux values. -/
def AF_UNSPEC : Int := 0

def AF_INET : Int := 2

def AF_INET6 : Int := 10

def AF_UNIX : Int := 1

/-- Modelled from the spec: `common.O_CLOEXEC` (the `common` module is not
under src). The Linux close-on-exec open flag, octal `0o2000000`, tested as a
bit of the open syscall's `flags` field. -/
def O_CLOEXEC : Nat := 0o2000000

/-- A trace event record, the external input interface: a timestamp, the
event (syscall) name, and field lookup by name. The fields below are exactly
those `sv.py` reads (`ret`, `filename`, `flags`, `fd`, `fd_in`, `fd_out`,
`in_fd`, `out_fd`, `len`, `count`, `nbytes`, `irq`, `vec`, `cpu_id`, `dev`,
`sector`, `nr_sector`, `tid`, `rwbs`). Malformed events are a caller
precondition, so each field is total here. -/
structure Event where
  timestamp : Int := 0
  name : String := ""
  ret : Int := 0
  filename : String := ""
  flags : Nat := 0
  fd : Int := 0
  fd_in : Int := 0
  fd_out : Int := 0
  in_fd : Int := 0
  out_fd : Int := 0
  len : Int := 0
  count : Int := 0
  nbytes : Int := 0
  irq : Nat := 0
  vec : Nat := 0
  cpu_id : Nat := 0
  dev : Int := 0
  sector : Int := 0
  nr_sector : Int := 0
  tid : Int := 0
  rwbs : Int := 0
deriving DecidableEq, Repr

/-- Dynamic field lookup `event[key]` for the integer size fields selected by
a `size_key` string in `ReadWriteIORequest.new_from_fd_event`. -/
def Event.get (e : Event) (key : String) : Int :=
  if key = "len" then e.len
  else if key = "count" then e.count
  else if key = "nbytes" then e.nbytes
  else if key = "fd" then e.fd
  else if key = "ret" then e.ret
  else 0

/-- Modelled from the spec: `common.get_syscall_name` (the `common` module is
not under src). The spec's input interface exposes each event's name; the
helper strips tracer prefixes and returns that name. -/
def get_syscall_name (event : Event) : String := event.name

/-- `FDType` constants from `sv.py`. -/
def FDType.unknown : Nat := 0

def FDType.disk : Nat := 1

def FDType.net : Nat := 2

def FDType.maybe_net : Nat := 3

/-- Operation constants of class `IORequest`. -/
def IORequest.OP_OPEN : Nat := 1

def IORequest.OP_READ : Nat := 2

def IORequest.OP_WRITE : Nat := 3

def IORequest.OP_CLOSE : Nat := 4

def IORequest.OP_SYNC : Nat := 5

/-- Base class `IORequest`. -/
structure IORequest where
  begin_ts : Int
  end_ts : Option Int
  duration : Option Int
  /-- request size in bytes -/
  size : Option Int
  operation : Nat
  /-- tid of process that triggered the rq -/
  tid : Int
  /-- Error number if request failed -/
  errno : Option Int
deriving DecidableEq, Repr

/-- `IORequest.__init__`. -/
def IORequest.init (begin_ts : Int) (size : Option Int) (tid : Int)
    (operation : Nat) : IORequest :=
  { begin_ts := begin_ts
    end_ts := none
    duration := none
    size := size
    operation := operation
    tid := tid
    errno := none }

/-- Class `SyscallIORequest`. -/
structure SyscallIORequest extends IORequest where
  fd : Option Int
  syscall_name : String
  /-- The size returned on syscall exit, in bytes. May differ from the size
  initially requested -/
  returned_size : Option Int
  pages_allocated : Int
  pages_freed : Int
  pages_written : Int
  woke_kswapd : Bool
deriving DecidableEq, Repr

/-- `SyscallIORequest.__init__`. The source passes `None`, not its `size`
argument, to `IORequest.__init__`. -/
def SyscallIORequest.init (begin_ts : Int) (size : Option Int) (tid : Int)
    (operation : Nat) (syscall_name : String) : SyscallIORequest :=
  { toIORequest := IORequest.init begin_ts none tid operation
    fd := none
    syscall_name := syscall_name
    returned_size := none
    pages_allocated := 0
    pages_freed := 0
    pages_written := 0
    woke_kswapd := false }

/-- `SyscallIORequest.update_from_exit`. -/
def SyscallIORequest.update_from_exit (self : SyscallIORequest)
    (event : Event) : SyscallIORequest :=
  let self := { self with
    end_ts := some event.timestamp
    duration := some (event.timestamp - self.begin_ts) }
  if event.ret < 0 then
    { self with errno := some (-event.ret) }
  else
    self

/-- Class `OpenIORequest`. -/
structure OpenIORequest extends SyscallIORequest where
  filename : String
  fd_type : Nat
  family : Option Int
  cloexec : Bool
deriving DecidableEq, Repr

/-- `OpenIORequest.__init__`. -/
def OpenIORequest.init (begin_ts : Int) (tid : Int)
    (syscall_name : String) (filename : String) (fd_type : Nat) :
    OpenIORequest :=
  { toSyscallIORequest :=
      SyscallIORequest.init begin_ts none tid IORequest.OP_OPEN syscall_name
    filename := filename
    fd_type := fd_type
    family := none
    cloexec := false }

/-- `OpenIORequest.update_from_exit`: the superclass update, then the FD is
set on a non-negative return. -/
def OpenIORequest.update_from_exit (self : OpenIORequest) (event : Event) :
    OpenIORequest :=
  let self := { self with
    toSyscallIORequest := self.toSyscallIORequest.update_from_exit event }
  if 0 ≤ event.ret then
    { self with fd := some event.ret }
  else
    self

/-- `OpenIORequest.new_from_disk_open`. -/
def OpenIORequest.new_from_disk_open (event : Event) (tid : Int) :
    OpenIORequest :=
  let begin_ts := event.timestamp
  let name := get_syscall_name event
  let filename := event.filename
  let req := OpenIORequest.init begin_ts tid name filename FDType.disk
  { req with cloexec := (event.flags &&& O_CLOEXEC) = O_CLOEXEC }

/-- The attributes `OpenIORequest.new_from_old_fd` reads off its `old_fd`
argument (the tracked descriptor a duplication syscall refers to): a filename
and an FD type. -/
structure OldFD where
  filename : String
  fd_type : Nat
deriving DecidableEq, Repr

/-- `OpenIORequest.new_from_old_fd`: an untracked referenced descriptor
(`old_fd is None`) degrades to filename `unknown` and the unknown FD type. -/
def OpenIORequest.new_from_old_fd (event : Event) (tid : Int)
    (old_fd : Option OldFD) : OpenIORequest :=
  let begin_ts := event.timestamp
  let name := get_syscall_name event
  match old_fd with
  | none =>
      OpenIORequest.init begin_ts tid name "unknown" FDType.unknown
  | some old_fd =>
      OpenIORequest.init begin_ts tid name old_fd.filename old_fd.fd_type

/-- Class `CloseIORequest`. -/
structure CloseIORequest extends SyscallIORequest
deriving DecidableEq, Repr

/-- `CloseIORequest.__init__`. -/
def CloseIORequest.init (begin_ts : Int) (tid : Int) (fd : Int) :
    CloseIORequest :=
  { toSyscallIORequest :=
      { SyscallIORequest.init begin_ts none tid IORequest.OP_CLOSE "close" with
          fd := some fd } }

/-- Syscall classification constants of class `SyscallConsts`. -/
def SyscallConsts.DISK_OPEN_SYSCALLS : List String := ["open", "openat"]

def SyscallConsts.NET_OPEN_SYSCALLS : List String :=
  ["accept", "accept4", "socket"]

def SyscallConsts.DUP_OPEN_SYSCALLS : List String :=
  ["fcntl", "dup", "dup2", "dup3"]

def SyscallConsts.SYNC_SYSCALLS : List String :=
  ["sync", "sync_file_range", "fsync", "fdatasync"]

def SyscallConsts.OPEN_SYSCALLS : List String :=
  SyscallConsts.DISK_OPEN_SYSCALLS ++ SyscallConsts.NET_OPEN_SYSCALLS ++
    SyscallConsts.DUP_OPEN_SYSCALLS

def SyscallConsts.CLOSE_SYSCALLS : List String := ["close"]

def SyscallConsts.READ_SYSCALLS : List String :=
  ["read", "recvmsg", "recvfrom", "splice", "readv", "sendfile64"]

def SyscallConsts.WRITE_SYSCALLS : List String :=
  ["write", "sendmsg", "sendto", "writev"]

/-- Class `ReadWriteIORequest`. -/
structure ReadWriteIORequest extends SyscallIORequest where
  /-- Unused if fd is set -/
  fd_in : Option Int
  fd_out : Option Int
deriving DecidableEq, Repr

/-- `ReadWriteIORequest.__init__`. -/
def ReadWriteIORequest.init (begin_ts : Int) (size : Option Int) (tid : Int)
    (operation : Nat) (syscall_name : String) : ReadWriteIORequest :=
  { toSyscallIORequest :=
      SyscallIORequest.init begin_ts size tid operation syscall_name
    fd_in := none
    fd_out := none }

/-- `ReadWriteIORequest.update_from_exit`: the superclass update, then a
non-negative return is recorded as `returned_size` and backfills `size` when
none was set at entry (as with recvmsg or sendmsg). -/
def ReadWriteIORequest.update_from_exit (self : ReadWriteIORequest)
    (event : Event) : ReadWriteIORequest :=
  let self := { self with
    toSyscallIORequest := self.toSyscallIORequest.update_from_exit event }
  let ret := event.ret
  if 0 ≤ ret then
    let self := { self with returned_size := some ret }
    if self.size.isNone then
      { self with size := some ret }
    else
      self
  else
    self

/-- `ReadWriteIORequest.new_from_splice`: entry size is the `len` field. -/
def ReadWriteIORequest.new_from_splice (event : Event) (tid : Int) :
    ReadWriteIORequest :=
  let begin_ts := event.timestamp
  let size := event.len
  let req :=
    ReadWriteIORequest.init begin_ts (some size) tid IORequest.OP_READ "splice"
  { req with fd_in := some event.fd_in, fd_out := some event.fd_out }

/-- `ReadWriteIORequest.new_from_sendfile64`: entry size is the `count`
field. -/
def ReadWriteIORequest.new_from_sendfile64 (event : Event) (tid : Int) :
    ReadWriteIORequest :=
  let begin_ts := event.timestamp
  let size := event.count
  let req :=
    ReadWriteIORequest.init begin_ts (some size) tid IORequest.OP_READ
      "sendfile64"
  { req with fd_in := some event.in_fd, fd_out := some event.out_fd }

/-- `ReadWriteIORequest.new_from_fd_event`: entry size from `event[size_key]`
when a size key is given, none otherwise (recvmsg/sendmsg only have size info
on return); read/write classified by membership in `READ_SYSCALLS`. -/
def ReadWriteIORequest.new_from_fd_event (event : Event) (tid : Int)
    (size_key : Option String) : ReadWriteIORequest :=
  let begin_ts := event.timestamp
  let size : Option Int :=
    match size_key with
    | some key => some (event.get key)
    | none => none
  let syscall_name := get_syscall_name event
  let operation :=
    if syscall_name ∈ SyscallConsts.READ_SYSCALLS then IORequest.OP_READ
    else IORequest.OP_WRITE
  let req := ReadWriteIORequest.init begin_ts size tid operation syscall_name
  { req with fd := some event.fd }

/-- Class `SyncIORequest`. -/
structure SyncIORequest extends SyscallIORequest
deriving DecidableEq, Repr

/-- `SyncIORequest.__init__`. -/
def SyncIORequest.init (begin_ts : Int) (size : Option Int) (tid : Int)
    (syscall_name : String) : SyncIORequest :=
  { toSyscallIORequest :=
      SyscallIORequest.init begin_ts size tid IORequest.OP_SYNC syscall_name }

/-- `SyncIORequest.update_from_exit`: the superclass update, then a
non-negative return is recorded as `returned_size` and backfills `size` when
none was set at entry (as with sync, fsync, and fdatasync). -/
def SyncIORequest.update_from_exit (self : SyncIORequest) (event : Event) :
    SyncIORequest :=
  let self := { self with
    toSyscallIORequest := self.toSyscallIORequest.update_from_exit event }
  let ret := event.ret
  if 0 ≤ ret then
    let self := { self with returned_size := some ret }
    if self.size.isNone then
      { self with size := some ret }
    else
      self
  else
    self

/-- `SyncIORequest.new_from_sync`. -/
def SyncIORequest.new_from_sync (event : Event) (tid : Int) : SyncIORequest :=
  let begin_ts := event.timestamp
  let size : Option Int := none
  SyncIORequest.init begin_ts size tid "sync"

/-- `SyncIORequest.new_from_fsync` (also handles fdatasync). -/
def SyncIORequest.new_from_fsync (event : Event) (tid : Int) : SyncIORequest :=
  let begin_ts := event.timestamp
  let size : Option Int := none
  let syscall_name := get_syscall_name event
  let req := SyncIORequest.init begin_ts size tid syscall_name
  { req with fd := some event.fd }

/-- `SyncIORequest.new_from_sync_file_range`: entry size is the `nbytes`
field. -/
def SyncIORequest.new_from_sync_file_range (event : Event) (tid : Int) :
    SyncIORequest :=
  let begin_ts := event.timestamp
  let size := event.nbytes
  let req := SyncIORequest.init begin_ts (some size) tid "sync_file_range"
  { req with fd := some event.fd }

/-- Class `BlockIORequest`. -/
structure BlockIORequest extends IORequest where
  dev : Int
  sector : Int
  nr_sector : Int
deriving DecidableEq, Repr

/-- Logical sector size in bytes, according to the kernel
(`BlockIORequest.SECTOR_SIZE`). -/
def BlockIORequest.SECTOR_SIZE : Int := 512

/-- `BlockIORequest.__init__`: byte size is `nr_sector * SECTOR_SIZE`. -/
def BlockIORequest.init (begin_ts : Int) (tid : Int) (operation : Nat)
    (dev : Int) (sector : Int) (nr_sector : Int) : BlockIORequest :=
  let size := nr_sector * BlockIORequest.SECTOR_SIZE
  { toIORequest := IORequest.init begin_ts (some size) tid operation
    dev := dev
    sector := sector
    nr_sector := nr_sector }

/-- `BlockIORequest.update_from_rq_complete`. -/
def BlockIORequest.update_from_rq_complete (self : BlockIORequest)
    (event : Event) : BlockIORequest :=
  { self with
    end_ts := some event.timestamp
    duration := some (event.timestamp - self.begin_ts) }

/-- `BlockIORequest.new_from_rq_issue`: an even `rwbs` indicates a read
operation, odd indicates write. -/
def BlockIORequest.new_from_rq_issue (event : Event) : BlockIORequest :=
  let begin_ts := event.timestamp
  let dev := event.dev
  let sector := event.sector
  let nr_sector := event.nr_sector
  let tid := event.tid
  let operation :=
    if event.rwbs % 2 = 0 then IORequest.OP_READ else IORequest.OP_WRITE
  BlockIORequest.init begin_ts tid operation dev sector nr_sector

/-- Class `BlockRemapRequest`. -/
structure BlockRemapRequest where
  dev : Int
  sector : Int
  old_dev : Int
  old_sector : Int
deriving DecidableEq, Repr

/-- Class `FD`: an open file descriptor with identity fields and transfer
counters. -/
structure FD where
  filename : String
  fd : Option Int
  /-- address family -/
  family : Int
  fdtype : Nat
  /-- if FD was inherited, parent PID -/
  parent : Option Int
  cloexec : Bool
  net_read : Int
  net_write : Int
  disk_read : Int
  disk_write : Int
  unk_read : Int
  unk_write : Int
  read : Int
  write : Int
  /-- array of syscall IORequest objects for freq analysis later -/
  iorequests : List SyscallIORequest

/-- `FD.init_counts`: zero every transfer counter and empty the request
history. -/
def FD.init_counts (self : FD) : FD :=
  { self with
    net_read := 0
    net_write := 0
    disk_read := 0
    disk_write := 0
    unk_read := 0
    unk_write := 0
    read := 0
    write := 0
    iorequests := [] }

/-- `FD.__init__`: identity defaults, then `init_counts`. -/
def FD.init : FD :=
  FD.init_counts
    { filename := ""
      fd := none
      family := AF_UNSPEC
      fdtype := FDType.unknown
      parent := none
      cloexec := false
      net_read := 0
      net_write := 0
      disk_read := 0
      disk_write := 0
      unk_read := 0
      unk_write := 0
      read := 0
      write := 0
      iorequests := [] }

/-- `FD.new_from_fd`: a fresh FD (zeroed counters via `FD.init`) that copies
only the identity fields of the source. -/
def FD.new_from_fd (fd : FD) : FD :=
  { FD.init with
    filename := fd.filename
    fd := fd.fd
    family := fd.family
    fdtype := fd.fdtype
    parent := fd.parent
    cloexec := fd.cloexec }

/-- Base class `IRQ`. -/
structure IRQ where
  id : Nat
  cpu_id : Nat
  begin_ts : Option Int
  end_ts : Option Int
deriving DecidableEq, Repr

/-- Class `HardIRQ`. -/
structure HardIRQ extends IRQ where
  ret : Option Int
deriving DecidableEq, Repr

/-- `HardIRQ.new_from_irq_handler_entry`. -/
def HardIRQ.new_from_irq_handler_entry (event : Event) : HardIRQ :=
  { id := event.irq
    cpu_id := event.cpu_id
    begin_ts := some event.timestamp
    end_ts := none
    ret := none }

/-- Class `SoftIRQ`: additionally carries a raise timestamp, since a softirq
may be raised long before being serviced. -/
structure SoftIRQ extends IRQ where
  raise_ts : Option Int
deriving DecidableEq, Repr

/-- `SoftIRQ.__init__`. -/
def SoftIRQ.init (id : Nat) (cpu_id : Nat) (raise_ts : Option Int)
    (begin_ts : Option Int) : SoftIRQ :=
  { id := id
    cpu_id := cpu_id
    begin_ts := begin_ts
    end_ts := none
    raise_ts := raise_ts }

/-- `SoftIRQ.new_from_softirq_raise`: raise path, `raise_ts` only. -/
def SoftIRQ.new_from_softirq_raise (event : Event) : SoftIRQ :=
  SoftIRQ.init event.vec event.cpu_id (some event.timestamp) none

/-- `SoftIRQ.new_from_softirq_entry`: entry path, `begin_ts` only. -/
def SoftIRQ.new_from_softirq_entry (event : Event) : SoftIRQ :=
  SoftIRQ.init event.vec event.cpu_id none (some event.timestamp)

/-- Class `CPU`: softirqs use a per-vector mapping because multiple ones can
be raised before handling; each entry is a chronologically ordered list. -/
structure CPU where
  cpu_id : Nat
  current_tid : Option Int
  current_hard_irq : Option HardIRQ
  current_softirqs : Nat → List SoftIRQ

/-- `CPU.__init__`. -/
def CPU.init (cpu_id : Nat) : CPU :=
  { cpu_id := cpu_id
    current_tid := none
    current_hard_irq := none
    current_softirqs := fun _ => [] }

/-- Modelled from the spec: helper of the IRQ-tracking automaton's
softirq-entry handler (the automaton module is not under src). Attaches a
begin timestamp to the first pending record that has none, returning `none`
when every pending record already began. -/
def softirq_attach_begin (ts : Int) : List SoftIRQ → Option (List SoftIRQ)
  | [] => none
  | s :: rest =>
    if s.begin_ts.isNone then
      some ({ s with begin_ts := some ts } :: rest)
    else
      match softirq_attach_begin ts rest with
      | some rest2 => some (s :: rest2)
      | none => none

/-- Modelled from the spec: the IRQ-tracking automaton's softirq-raise
handler (the automaton module is not under src). A raise appends a new
pending SoftIRQ record (raise timestamp only) to the CPU's ordered list for
that vector. -/
def CPU.process_softirq_raise (cpu : CPU) (event : Event) : CPU :=
  let vec := event.vec
  { cpu with
    current_softirqs := fun v =>
      if v = vec then
        cpu.current_softirqs v ++ [SoftIRQ.new_from_softirq_raise event]
      else
        cpu.current_softirqs v }

/-- Modelled from the spec: the IRQ-tracking automaton's softirq-entry
handler (the automaton module is not under src). Servicing a vector attaches
the begin timestamp to the earliest raised-but-unserviced pending record of
that vector instead of creating a second record; only when no such record is
pending does it create a fresh entry-path record. -/
def CPU.process_softirq_entry (cpu : CPU) (event : Event) : CPU :=
  let vec := event.vec
  let newlist :=
    match softirq_attach_begin event.timestamp (cpu.current_softirqs vec) with
    | some l => l
    | none =>
        cpu.current_softirqs vec ++ [SoftIRQ.new_from_softirq_entry event]
  { cpu with
    current_softirqs := fun v =>
      if v = vec then newlist else cpu.current_softirqs v }

end sv

namespace sv

/-- C1: the spec says a syscall-level request built from an entry event with a
size field (splice `len`, sendfile64 `count`, sync_file_range `nbytes`)
carries that value as its size. The code drops it:
`SyscallIORequest.init` forwards `none` instead of its size argument, so the
splice request built from an entry event with `len = 100` (and likewise the
sync_file_range request with `nbytes = 50`) has no size at entry, although
the event's field is present. -/
theorem C1_entry_size_discarded :
    ({ timestamp := 10, len := 100, fd_in := 3, fd_out := 4 : Event }).len
        = 100 ∧
    (ReadWriteIORequest.new_from_splice
        { timestamp := 10, len := 100, fd_in := 3, fd_out := 4 } 42).size
        = none ∧
    ({ timestamp := 10, nbytes := 50, fd := 2 : Event }).nbytes = 50 ∧
    (SyncIORequest.new_from_sync_file_range
        { timestamp := 10, nbytes := 50, fd := 2 } 42).size = none :=
  ⟨rfl, rfl, rfl, rfl⟩

/-- C2: finalizing a syscall-level request (`update_from_exit`) or a block
request (`update_from_rq_complete`) with an event whose timestamp is at least
the request's begin timestamp yields a request with `end_ts` set, `end_ts ≥
begin_ts`, and `duration = end_ts - begin_ts` exactly. -/
theorem C2_finalized_end_after_begin (r : SyscallIORequest)
    (b : BlockIORequest) (e1 e2 : Event)
    (h1 : r.begin_ts ≤ e1.timestamp) (h2 : b.begin_ts ≤ e2.timestamp) :
    (∃ et, (r.update_from_exit e1).end_ts = some et ∧
      (r.update_from_exit e1).begin_ts ≤ et ∧
      (r.update_from_exit e1).duration
        = some (et - (r.update_from_exit e1).begin_ts)) ∧
    (∃ et, (b.update_from_rq_complete e2).end_ts = some et ∧
      (b.update_from_rq_complete e2).begin_ts ≤ et ∧
      (b.update_from_rq_complete e2).duration
        = some (et - (b.update_from_rq_complete e2).begin_ts)) := by
  constructor
  · refine ⟨e1.timestamp, ?_⟩
    unfold SyscallIORequest.update_from_exit
    split <;> simp_all
  · exact ⟨e2.timestamp, rfl, h2, rfl⟩

theorem C2_finalized_end_after_begin_witness :
    (∃ et, ((SyscallIORequest.init 3 none 1 IORequest.OP_READ
        "read").update_from_exit { timestamp := 5 }).end_ts = some et ∧
      ((SyscallIORequest.init 3 none 1 IORequest.OP_READ
        "read").update_from_exit { timestamp := 5 }).begin_ts ≤ et ∧
      ((SyscallIORequest.init 3 none 1 IORequest.OP_READ
        "read").update_from_exit { timestamp := 5 }).duration
        = some (et - ((SyscallIORequest.init 3 none 1 IORequest.OP_READ
            "read").update_from_exit { timestamp := 5 }).begin_ts)) ∧
    (∃ et, ((BlockIORequest.init 3 1 IORequest.OP_READ 8 0
        16).update_from_rq_complete { timestamp := 9 }).end_ts = some et ∧
      ((BlockIORequest.init 3 1 IORequest.OP_READ 8 0
        16).update_from_rq_complete { timestamp := 9 }).begin_ts ≤ et ∧
      ((BlockIORequest.init 3 1 IORequest.OP_READ 8 0
        16).update_from_rq_complete { timestamp := 9 }).duration
        = some (et - ((BlockIORequest.init 3 1 IORequest.OP_READ 8 0
            16).update_from_rq_complete { timestamp := 9 }).begin_ts)) :=
  C2_finalized_end_after_begin
    (SyscallIORequest.init 3 none 1 IORequest.OP_READ "read")
    (BlockIORequest.init 3 1 IORequest.OP_READ 8 0 16)
    { timestamp := 5 } { timestamp := 9 } (by decide) (by decide)

end sv

namespace sv

/-- Projection lemmas for `SyscallIORequest.update_from_exit`: the exit
update sets `end_ts` and `duration`, conditionally sets `errno`, and leaves
every other field unchanged. -/
@[simp]
theorem SyscallIORequest.syscall_exit_begin_ts (r : SyscallIORequest)
    (e : Event) : (r.update_from_exit e).begin_ts = r.begin_ts := by
  simp only [SyscallIORequest.update_from_exit]
  split <;> rfl

@[simp]
theorem SyscallIORequest.syscall_exit_end_ts (r : SyscallIORequest)
    (e : Event) : (r.update_from_exit e).end_ts = some e.timestamp := by
  simp only [SyscallIORequest.update_from_exit]
  split <;> rfl

@[simp]
theorem SyscallIORequest.syscall_exit_duration (r : SyscallIORequest)
    (e : Event) :
    (r.update_from_exit e).duration = some (e.timestamp - r.begin_ts) := by
  simp only [SyscallIORequest.update_from_exit]
  split <;> rfl

@[simp]
theorem SyscallIORequest.syscall_exit_size (r : SyscallIORequest)
    (e : Event) : (r.update_from_exit e).size = r.size := by
  simp only [SyscallIORequest.update_from_exit]
  split <;> rfl

@[simp]
theorem SyscallIORequest.syscall_exit_returned_size (r : SyscallIORequest)
    (e : Event) : (r.update_from_exit e).returned_size = r.returned_size := by
  simp only [SyscallIORequest.update_from_exit]
  split <;> rfl

@[simp]
theorem SyscallIORequest.syscall_exit_fd (r : SyscallIORequest)
    (e : Event) : (r.update_from_exit e).fd = r.fd := by
  simp only [SyscallIORequest.update_from_exit]
  split <;> rfl

@[simp]
theorem SyscallIORequest.syscall_exit_errno (r : SyscallIORequest)
    (e : Event) :
    (r.update_from_exit e).errno
      = if e.ret < 0 then some (-e.ret) else r.errno := by
  simp only [SyscallIORequest.update_from_exit]
  split <;> simp_all

end sv

namespace sv

/-- Projection lemmas for `OpenIORequest.update_from_exit`. -/
@[simp]
theorem OpenIORequest.open_exit_fd (r : OpenIORequest) (e : Event) :
    (r.update_from_exit e).fd
      = if 0 ≤ e.ret then some e.ret else r.fd := by
  simp only [OpenIORequest.update_from_exit]
  split <;> simp_all

@[simp]
theorem OpenIORequest.open_exit_errno (r : OpenIORequest) (e : Event) :
    (r.update_from_exit e).errno
      = if e.ret < 0 then some (-e.ret) else r.errno := by
  simp only [OpenIORequest.update_from_exit]
  split <;> simp_all

@[simp]
theorem OpenIORequest.open_exit_begin_ts (r : OpenIORequest)
    (e : Event) : (r.update_from_exit e).begin_ts = r.begin_ts := by
  simp only [OpenIORequest.update_from_exit]
  split <;> simp_all

@[simp]
theorem OpenIORequest.open_exit_end_ts (r : OpenIORequest)
    (e : Event) : (r.update_from_exit e).end_ts = some e.timestamp := by
  simp only [OpenIORequest.update_from_exit]
  split <;> simp_all

@[simp]
theorem OpenIORequest.open_exit_duration (r : OpenIORequest)
    (e : Event) :
    (r.update_from_exit e).duration = some (e.timestamp - r.begin_ts) := by
  simp only [OpenIORequest.update_from_exit]
  split <;> simp_all

@[simp]
theorem OpenIORequest.open_exit_cloexec (r : OpenIORequest)
    (e : Event) : (r.update_from_exit e).cloexec = r.cloexec := by
  simp only [OpenIORequest.update_from_exit]
  split <;> rfl

/-- Projection lemmas for `ReadWriteIORequest.update_from_exit`. -/
@[simp]
theorem ReadWriteIORequest.rw_exit_returned_size
    (r : ReadWriteIORequest) (e : Event) :
    (r.update_from_exit e).returned_size
      = if 0 ≤ e.ret then some e.ret else r.returned_size := by
  simp only [ReadWriteIORequest.update_from_exit]
  split <;> (try split) <;> simp_all

@[simp]
theorem ReadWriteIORequest.rw_exit_size (r : ReadWriteIORequest)
    (e : Event) :
    (r.update_from_exit e).size
      = if 0 ≤ e.ret then
          (if r.size.isNone then some e.ret else r.size)
        else r.size := by
  simp only [ReadWriteIORequest.update_from_exit]
  split <;> (try split) <;> simp_all

@[simp]
theorem ReadWriteIORequest.rw_exit_errno (r : ReadWriteIORequest)
    (e : Event) :
    (r.update_from_exit e).errno
      = if e.ret < 0 then some (-e.ret) else r.errno := by
  simp only [ReadWriteIORequest.update_from_exit]
  split <;> (try split) <;> simp_all

/-- Projection lemmas for `SyncIORequest.update_from_exit`. -/
@[simp]
theorem SyncIORequest.sync_exit_returned_size (r : SyncIORequest)
    (e : Event) :
    (r.update_from_exit e).returned_size
      = if 0 ≤ e.ret then some e.ret else r.returned_size := by
  simp only [SyncIORequest.update_from_exit]
  split <;> (try split) <;> simp_all

@[simp]
theorem SyncIORequest.sync_exit_size (r : SyncIORequest) (e : Event) :
    (r.update_from_exit e).size
      = if 0 ≤ e.ret then
          (if r.size.isNone then some e.ret else r.size)
        else r.size := by
  simp only [SyncIORequest.update_from_exit]
  split <;> (try split) <;> simp_all

@[simp]
theorem SyncIORequest.sync_exit_errno (r : SyncIORequest) (e : Event) :
    (r.update_from_exit e).errno
      = if e.ret < 0 then some (-e.ret) else r.errno := by
  simp only [SyncIORequest.update_from_exit]
  split <;> (try split) <;> simp_all

end sv

namespace sv

/-- C3: a ReadWriteIORequest or SyncIORequest with no size at entry,
finalized with a non-negative return, ends with `returned_size = ret` and
`size = returned_size`; a size already set at entry is left unchanged by the
exit update. -/
theorem C3_size_backfilled_from_ret (r : ReadWriteIORequest)
    (s : SyncIORequest) (e : Event) (h : 0 ≤ e.ret) :
    ((r.size = none →
        (r.update_from_exit e).returned_size = some e.ret ∧
        (r.update_from_exit e).size = (r.update_from_exit e).returned_size) ∧
      (∀ v, r.size = some v → (r.update_from_exit e).size = some v)) ∧
    ((s.size = none →
        (s.update_from_exit e).returned_size = some e.ret ∧
        (s.update_from_exit e).size = (s.update_from_exit e).returned_size) ∧
      (∀ v, s.size = some v → (s.update_from_exit e).size = some v)) := by
  refine ⟨⟨fun hnone => ?_, fun v hv => ?_⟩,
    ⟨fun hnone => ?_, fun v hv => ?_⟩⟩
  · simp [h, hnone]
  · simp [h, hv]
  · simp [h, hnone]
  · simp [h, hv]

theorem C3_size_backfilled_from_ret_witness :
    ((ReadWriteIORequest.init 0 none 7 IORequest.OP_READ
        "recvmsg").update_from_exit { timestamp := 2, ret := 9 }).size
      = some 9 ∧
    ((SyncIORequest.init 0 none 7 "sync").update_from_exit
        { timestamp := 2, ret := 9 }).size = some 9 := by
  have h := C3_size_backfilled_from_ret
    (ReadWriteIORequest.init 0 none 7 IORequest.OP_READ "recvmsg")
    (SyncIORequest.init 0 none 7 "sync")
    { timestamp := 2, ret := 9 } (by decide)
  constructor
  · have h2 := h.1.1 rfl
    rw [h2.2, h2.1]
  · have h2 := h.2.1 rfl
    rw [h2.2, h2.1]

/-- C4: `BlockIORequest.new_from_rq_issue` classifies the operation by the
parity of the event's `rwbs` field — even means read, odd means write — and
the request's byte size is `nr_sector` times the fixed sector size 512. -/
theorem C4_rq_issue_parity_and_size (e : Event) :
    (e.rwbs % 2 = 0 →
      (BlockIORequest.new_from_rq_issue e).operation = IORequest.OP_READ) ∧
    (e.rwbs % 2 ≠ 0 →
      (BlockIORequest.new_from_rq_issue e).operation = IORequest.OP_WRITE) ∧
    (BlockIORequest.new_from_rq_issue e).size = some (e.nr_sector * 512) := by
  refine ⟨fun hpar => ?_, fun hpar => ?_, rfl⟩ <;>
    simp_all [BlockIORequest.new_from_rq_issue, BlockIORequest.init,
      IORequest.init]

theorem C4_rq_issue_parity_and_size_witness :
    (BlockIORequest.new_from_rq_issue
        { timestamp := 0, rwbs := 4, nr_sector := 8 }).operation
      = IORequest.OP_READ ∧
    (BlockIORequest.new_from_rq_issue
        { timestamp := 0, rwbs := 5, nr_sector := 8 }).operation
      = IORequest.OP_WRITE ∧
    (BlockIORequest.new_from_rq_issue
        { timestamp := 0, rwbs := 4, nr_sector := 8 }).size = some 4096 := by
  refine ⟨(C4_rq_issue_parity_and_size _).1 (by decide),
    (C4_rq_issue_parity_and_size _).2.1 (by decide), ?_⟩
  have h := (C4_rq_issue_parity_and_size
    { timestamp := 0, rwbs := 4, nr_sector := 8 }).2.2
  rw [h]
  decide

/-- C5: a duplication-syscall OpenIORequest referencing an untracked
descriptor (`old_fd = none`) gets filename `unknown` and the unknown FD type
(and the construction is total, so nothing is raised); referencing a tracked
descriptor copies its filename and FD type. -/
theorem C5_dup_untracked_degrades (e : Event) (t : Int) (fdv : OldFD) :
    ((OpenIORequest.new_from_old_fd e t none).filename = "unknown" ∧
      (OpenIORequest.new_from_old_fd e t none).fd_type = FDType.unknown) ∧
    ((OpenIORequest.new_from_old_fd e t (some fdv)).filename = fdv.filename ∧
      (OpenIORequest.new_from_old_fd e t (some fdv)).fd_type = fdv.fd_type) :=
  ⟨⟨rfl, rfl⟩, ⟨rfl, rfl⟩⟩

/-- C6: a non-open syscall request finalized with a negative return records
the positive errno `-ret` (as data, with the update total, so nothing is
raised); with a non-negative return the errno field is untouched, hence still
unset for a request whose errno was none at entry. Stated for
`SyscallIORequest.update_from_exit` (the non-open implementation) and for the
`ReadWriteIORequest` override that wraps it. -/
theorem C6_negative_ret_becomes_errno (r : SyscallIORequest)
    (rw : ReadWriteIORequest) (e : Event) :
    ((e.ret < 0 → (r.update_from_exit e).errno = some (-e.ret)) ∧
      (0 ≤ e.ret → (r.update_from_exit e).errno = r.errno)) ∧
    ((e.ret < 0 → (rw.update_from_exit e).errno = some (-e.ret)) ∧
      (0 ≤ e.ret → (rw.update_from_exit e).errno = rw.errno)) := by
  refine ⟨⟨fun hneg => ?_, fun hpos => ?_⟩,
    ⟨fun hneg => ?_, fun hpos => ?_⟩⟩
  · simp [hneg]
  · simp [Int.not_lt.mpr hpos]
  · simp [hneg]
  · simp [Int.not_lt.mpr hpos]

theorem C6_negative_ret_becomes_errno_witness :
    ((SyscallIORequest.init 0 none 1 IORequest.OP_READ
        "read").update_from_exit { timestamp := 1, ret := -5 }).errno
      = some 5 ∧
    ((SyscallIORequest.init 0 none 1 IORequest.OP_READ
        "read").update_from_exit { timestamp := 1, ret := 3 }).errno
      = none ∧
    ((ReadWriteIORequest.init 0 none 1 IORequest.OP_READ
        "read").update_from_exit { timestamp := 1, ret := -5 }).errno
      = some 5 ∧
    ((ReadWriteIORequest.init 0 none 1 IORequest.OP_READ
        "read").update_from_exit { timestamp := 1, ret := 3 }).errno
      = none := by
  have hneg := C6_negative_ret_becomes_errno
    (SyscallIORequest.init 0 none 1 IORequest.OP_READ "read")
    (ReadWriteIORequest.init 0 none 1 IORequest.OP_READ "read")
    { timestamp := 1, ret := -5 }
  have hpos := C6_negative_ret_becomes_errno
    (SyscallIORequest.init 0 none 1 IORequest.OP_READ "read")
    (ReadWriteIORequest.init 0 none 1 IORequest.OP_READ "read")
    { timestamp := 1, ret := 3 }
  have e1lt : ({ timestamp := 1, ret := -5 : Event }).ret < 0 := by decide
  have e2ge : 0 ≤ ({ timestamp := 1, ret := 3 : Event }).ret := by decide
  refine ⟨?_, ?_, ?_, ?_⟩
  · rw [hneg.1.1 e1lt]
    decide
  · rw [hpos.1.2 e2ge]
    rfl
  · rw [hneg.2.1 e1lt]
    decide
  · rw [hpos.2.2 e2ge]
    rfl

end sv

namespace sv

/-- C7: `FD.new_from_fd` copies exactly the identity fields (filename, fd
number, family, fdtype, parent, cloexec) of the source while every transfer
counter of the duplicate is zero and its request history empty, whatever the
accumulated values of the source; hence duplicating the same source twice
yields two such identically-identified, independently-zeroed records. -/
theorem C7_new_from_fd_zeroes_counters (src : FD) :
    ((FD.new_from_fd src).filename = src.filename ∧
      (FD.new_from_fd src).fd = src.fd ∧
      (FD.new_from_fd src).family = src.family ∧
      (FD.new_from_fd src).fdtype = src.fdtype ∧
      (FD.new_from_fd src).parent = src.parent ∧
      (FD.new_from_fd src).cloexec = src.cloexec) ∧
    ((FD.new_from_fd src).net_read = 0 ∧
      (FD.new_from_fd src).net_write = 0 ∧
      (FD.new_from_fd src).disk_read = 0 ∧
      (FD.new_from_fd src).disk_write = 0 ∧
      (FD.new_from_fd src).unk_read = 0 ∧
      (FD.new_from_fd src).unk_write = 0 ∧
      (FD.new_from_fd src).read = 0 ∧
      (FD.new_from_fd src).write = 0 ∧
      (FD.new_from_fd src).iorequests = []) :=
  ⟨⟨rfl, rfl, rfl, rfl, rfl, rfl⟩,
    ⟨rfl, rfl, rfl, rfl, rfl, rfl, rfl, rfl, rfl⟩⟩

/-- C8: an open request built by `new_from_disk_open` from an entry event at
timestamp 10 with filename `/tmp/a` and flags including O_CLOEXEC, finalized
at timestamp 12 with return 7, has fd 7, cloexec true and duration 2; in
general a non-negative return assigns the new descriptor number. -/
theorem C8_disk_open_then_exit (r : OpenIORequest) (e : Event)
    (h : 0 ≤ e.ret) :
    (((OpenIORequest.new_from_disk_open
          { timestamp := 10, name := "open", filename := "/tmp/a",
            flags := O_CLOEXEC + 2 } 1).update_from_exit
          { timestamp := 12, ret := 7 }).fd = some 7 ∧
      ((OpenIORequest.new_from_disk_open
          { timestamp := 10, name := "open", filename := "/tmp/a",
            flags := O_CLOEXEC + 2 } 1).update_from_exit
          { timestamp := 12, ret := 7 }).cloexec = true ∧
      ((OpenIORequest.new_from_disk_open
          { timestamp := 10, name := "open", filename := "/tmp/a",
            flags := O_CLOEXEC + 2 } 1).update_from_exit
          { timestamp := 12, ret := 7 }).duration = some 2) ∧
    (r.update_from_exit e).fd = some e.ret := by
  refine ⟨⟨?_, ?_, ?_⟩, ?_⟩
  · rfl
  · rfl
  · rfl
  · simp [h]

theorem C8_disk_open_then_exit_witness :
    ((OpenIORequest.init 0 1 "open" "f" FDType.disk).update_from_exit
        { timestamp := 3, ret := 7 }).fd = some 7 :=
  (C8_disk_open_then_exit (OpenIORequest.init 0 1 "open" "f" FDType.disk)
    { timestamp := 3, ret := 7 } (by decide)).2

/-- C9: a softirq raise on vector 3 at timestamp 100 followed by a softirq
entry on vector 3 at timestamp 150 leaves a single pending SoftIRQ record
for vector 3 carrying both the raise timestamp 100 and the begin timestamp
150, not two separate records. -/
theorem C9_softirq_raise_then_entry_single_record :
    (((CPU.init 0).process_softirq_raise
        { timestamp := 100, vec := 3, cpu_id := 0 }).process_softirq_entry
        { timestamp := 150, vec := 3, cpu_id := 0 }).current_softirqs 3
      = [{ id := 3, cpu_id := 0, begin_ts := some 150, end_ts := none,
            raise_ts := some 100 }] := by
  rfl

/-- C10: an OpenIORequest finalized with a negative return records the
positive errno `-ret` (errno recording applies to open requests too) while
the resolved fd field is left as it was, hence still unset for a request
whose fd was none at entry. -/
theorem C10_open_negative_ret_errno (r : OpenIORequest) (e : Event)
    (h : e.ret < 0) :
    (r.update_from_exit e).errno = some (-e.ret) ∧
    (r.update_from_exit e).fd = r.fd := by
  constructor
  · simp [h]
  · simp [Int.not_le.mpr h]

theorem C10_open_negative_ret_errno_witness :
    ((OpenIORequest.init 0 1 "open" "f" FDType.disk).update_from_exit
        { timestamp := 3, ret := -13 }).errno = some 13 ∧
    ((OpenIORequest.init 0 1 "open" "f" FDType.disk).update_from_exit
        { timestamp := 3, ret := -13 }).fd = none := by
  have h := C10_open_negative_ret_errno
    (OpenIORequest.init 0 1 "open" "f" FDType.disk)
    { timestamp := 3, ret := -13 } (by decide)
  refine ⟨?_, h.2⟩
  rw [h.1]
  decide

end sv
